import Mathlib

/-!
Verification development for a two-stage YouTube ETL pipeline:
an extraction Lambda (`lambda_function.py`) and a Glue/Spark transformation
job (`glue_job.py`).  The Python sources are shallowly embedded as Lean
definitions: wall-clock reads (`datetime.now`, `datetime.utcnow`,
`current_timestamp()`) become explicit parameters, Python exceptions become
`Except`/`Option` results, and the third-party API, S3 and the Spark engine
are modelled by explicit oracles / list semantics.
-/

/-! ## Timestamps

The platform delivers creation timestamps as strings in the fixed format
`YYYY-MM-DDTHH:MM:SSZ`.  `parseTsZ` models CPython
`datetime.strptime(s, "%Y-%m-%dT%H:%M:%SZ")`: four year digits, one or two
digits for the other fields (as the `%m`/`%d`/`%H`/`%M`/`%S` regexes allow),
literal separators, full-string match, and the `datetime` range checks.
`tsEpoch` maps a parsed timestamp to seconds in the proleptic Gregorian
calendar, which realises Python `datetime` comparison and
`timedelta(days=365)` arithmetic. -/

structure ParsedTs where
  year : Nat
  month : Nat
  day : Nat
  hour : Nat
  minute : Nat
  second : Nat
deriving DecidableEq, Inhabited

def spanDigits : List Char → List Char × List Char
  | [] => ([], [])
  | c :: cs =>
    if c.isDigit then
      let p := spanDigits cs
      (c :: p.1, p.2)
    else ([], c :: cs)

def digitsVal (cs : List Char) : Nat :=
  cs.foldl (fun n c => n * 10 + (c.toNat - 48)) 0

def isLeapYear (y : Nat) : Bool :=
  y % 4 == 0 && (y % 100 != 0 || y % 400 == 0)

def daysInMonth (y m : Nat) : Nat :=
  match m with
  | 2 => if isLeapYear y then 29 else 28
  | 4 => 30
  | 6 => 30
  | 9 => 30
  | 11 => 30
  | _ => 31

def cumDaysBeforeMonth (y m : Nat) : Nat :=
  (match m with
   | 1 => 0 | 2 => 31 | 3 => 59 | 4 => 90 | 5 => 120 | 6 => 151
   | 7 => 181 | 8 => 212 | 9 => 243 | 10 => 273 | 11 => 304 | _ => 334)
  + (if 3 ≤ m ∧ isLeapYear y then 1 else 0)

def daysBeforeYear (y : Nat) : Nat :=
  (y - 1) * 365 + ((y - 1) / 4 + (y - 1) / 400) - (y - 1) / 100

def tsEpoch (t : ParsedTs) : Int :=
  ((daysBeforeYear t.year + cumDaysBeforeMonth t.year t.month + (t.day - 1)) * 86400
    + t.hour * 3600 + t.minute * 60 + t.second : Nat)

def parseTsZ (s : String) : Option ParsedTs :=
  let p1 := spanDigits s.toList
  if p1.1.length = 4 ∧ 1 ≤ digitsVal p1.1 then
    match p1.2 with
    | '-' :: r2 =>
      let pm := spanDigits r2
      let mo := digitsVal pm.1
      if 1 ≤ pm.1.length ∧ pm.1.length ≤ 2 ∧ 1 ≤ mo ∧ mo ≤ 12 then
        match pm.2 with
        | '-' :: r4 =>
          let pd := spanDigits r4
          let da := digitsVal pd.1
          if 1 ≤ pd.1.length ∧ pd.1.length ≤ 2 ∧ 1 ≤ da ∧ da ≤ daysInMonth (digitsVal p1.1) mo then
            match pd.2 with
            | 'T' :: r6 =>
              let ph := spanDigits r6
              let ho := digitsVal ph.1
              if 1 ≤ ph.1.length ∧ ph.1.length ≤ 2 ∧ ho ≤ 23 then
                match ph.2 with
                | ':' :: r8 =>
                  let pmin := spanDigits r8
                  let mi := digitsVal pmin.1
                  if 1 ≤ pmin.1.length ∧ pmin.1.length ≤ 2 ∧ mi ≤ 59 then
                    match pmin.2 with
                    | ':' :: r10 =>
                      let ps := spanDigits r10
                      let se := digitsVal ps.1
                      if 1 ≤ ps.1.length ∧ ps.1.length ≤ 2 ∧ se ≤ 59 then
                        match ps.2 with
                        | ['Z'] => some ⟨digitsVal p1.1, mo, da, ho, mi, se⟩
                        | _ => none
                      else none
                    | _ => none
                  else none
                | _ => none
              else none
            | _ => none
          else none
        | _ => none
      else none
    | _ => none
  else none

/-- `str(n).zfill(2)` for a natural number `n`. -/
def zfill2 (n : Nat) : String :=
  if n < 10 then "0" ++ Nat.repr n else Nat.repr n

/-- Zero-padding to four places, as in `strftime` directive `%Y`. -/
def pad4 (n : Nat) : String :=
  if n < 10 then "000" ++ Nat.repr n
  else if n < 100 then "00" ++ Nat.repr n
  else if n < 1000 then "0" ++ Nat.repr n
  else Nat.repr n

/-! ## Glue job: `get_date_paths` (glue_job.py, lines 65-80)

The Python function reads `datetime.now()`; here the current date is the
explicit argument `(y, m, d)`.  `year` is passed through as an integer,
`month`/`day` are stringified, zero-filled to two places, and converted back
with `int(...)` (decimal-digit strings, interpreted by `digitsVal`). -/

structure DateInfo where
  year : Int
  month : Int
  day : Int
  date_path : String
deriving DecidableEq

def get_date_paths (y m d : Nat) : DateInfo :=
  { year := (y : Int)
    month := (digitsVal (zfill2 m).toList : Int)
    day := (digitsVal (zfill2 d).toList : Int)
    date_path := "year=" ++ Nat.repr y ++ "/month=" ++ zfill2 m ++ "/day=" ++ zfill2 d }

/-! ## Glue job: the raw JSON schema (glue_job.py, lines 12-38)

Every leaf field is nullable (`StructField(..., True)`), hence
`Option String`; the array and nested struct are nullable too. -/

structure VideoJ where
  video_id : Option String
  title : Option String
  description : Option String
  published_at : Option String
  view_count : Option String
  like_count : Option String
  comment_count : Option String
  duration : Option String
deriving DecidableEq, Inhabited

structure ChannelJ where
  channel_id : Option String
  title : Option String
  description : Option String
  published_at : Option String
  view_count : Option String
  subscriber_count : Option String
  video_count : Option String
  playlist_id : Option String
deriving DecidableEq, Inhabited

/-- One row of `raw_df`: one assembled record per raw JSON object. -/
structure RawRec where
  videos : Option (List VideoJ)
  channel_info : Option ChannelJ
deriving DecidableEq, Inhabited

def isWsChar (c : Char) : Bool :=
  c == ' ' || c == '\t' || c == '\n' || c == '\r'

/-- Leading/trailing-whitespace strip over the character list. -/
def trimChars (cs : List Char) : List Char :=
  ((cs.dropWhile isWsChar).reverse.dropWhile isWsChar).reverse

/-- Spark `CAST(string AS long)`: trim, optional sign, decimal digits,
64-bit range; `NULL` (here `none`) on anything else.  This is the crux of
claim C2: a non-numeric count does not raise, it becomes null. -/
def sparkCastLong (s : String) : Option Int :=
  match trimChars s.toList with
  | '+' :: ds =>
    if ds ≠ [] ∧ ds.all Char.isDigit ∧ (digitsVal ds : Int) < 2 ^ 63
    then some (digitsVal ds : Int) else none
  | '-' :: ds =>
    if ds ≠ [] ∧ ds.all Char.isDigit ∧ (digitsVal ds : Int) ≤ 2 ^ 63
    then some (-(digitsVal ds : Int)) else none
  | ds =>
    if ds ≠ [] ∧ ds.all Char.isDigit ∧ (digitsVal ds : Int) < 2 ^ 63
    then some (digitsVal ds : Int) else none

def castLong (s : Option String) : Option Int := s.bind sparkCastLong

/-- Spark `to_timestamp(col)` on the platform format; null on failure. -/
def toTsOpt (s : Option String) : Option ParsedTs := s.bind parseTsZ

/-- `exploded_df` (lines 99-102): `explode(col("videos"))` produces one row
per array element and drops records whose array is null; the parent
`channel_info` struct is carried along unchanged. -/
def exploded (recs : List RawRec) : List (Option ChannelJ × VideoJ) :=
  recs.flatMap fun r => (r.videos.getD []).map fun v => (r.channel_info, v)

/-- A row of `channel_df` (lines 105-114): note the Spark column of
`view_count_c` is named `view_count`, like the video-level column. -/
structure ChanRow where
  channel_id : Option String
  channel_title : Option String
  channel_description : Option String
  channel_published_at : Option ParsedTs
  subscriber_count : Option Int
  video_count : Option Int
  view_count_c : Option Int
  playlist_id : Option String
deriving DecidableEq, Inhabited

/-- A row of `videos_df` (lines 117-127). -/
structure VidRow where
  vid_channel_id : Option String
  video_id : Option String
  video_title : Option String
  video_description : Option String
  published_at : Option ParsedTs
  view_count : Option Int
  like_count : Option Int
  comment_count : Option Int
  duration : Option String
deriving DecidableEq, Inhabited

/-- Field access through a possibly-null struct yields null. -/
def chanRowOf (c : Option ChannelJ) : ChanRow :=
  { channel_id := c.bind (fun x => x.channel_id)
    channel_title := c.bind (fun x => x.title)
    channel_description := c.bind (fun x => x.description)
    channel_published_at := toTsOpt (c.bind (fun x => x.published_at))
    subscriber_count := castLong (c.bind (fun x => x.subscriber_count))
    video_count := castLong (c.bind (fun x => x.video_count))
    view_count_c := castLong (c.bind (fun x => x.view_count))
    playlist_id := c.bind (fun x => x.playlist_id) }

def vidRowOf (c : Option ChannelJ) (v : VideoJ) : VidRow :=
  { vid_channel_id := c.bind (fun x => x.channel_id)
    video_id := v.video_id
    video_title := v.title
    video_description := v.description
    published_at := toTsOpt v.published_at
    view_count := castLong v.view_count
    like_count := castLong v.like_count
    comment_count := castLong v.comment_count
    duration := v.duration }

/-- `channel_df` is selected from the EXPLODED frame: one (duplicated)
channel row per video, not one per channel.  This drives claim C1. -/
def channel_df (recs : List RawRec) : List ChanRow :=
  (exploded recs).map fun p => chanRowOf p.1

def videos_df (recs : List RawRec) : List VidRow :=
  (exploded recs).map fun p => vidRowOf p.1 p.2

/-- SQL equality used as the join condition: null never matches. -/
def nullStrEq (a b : Option String) : Bool :=
  match a, b with
  | some x, some y => x == y
  | _, _ => false

/-- A row of the joined frame after `drop("vid_channel_id")` (lines
130-132): the video columns followed by the channel columns.  The Lean
field `view_count_c` corresponds to a second Spark column that is also
named `view_count`. -/
structure JRow where
  video_id : Option String
  video_title : Option String
  video_description : Option String
  published_at : Option ParsedTs
  view_count : Option Int
  like_count : Option Int
  comment_count : Option Int
  duration : Option String
  channel_id : Option String
  channel_title : Option String
  channel_description : Option String
  channel_published_at : Option ParsedTs
  subscriber_count : Option Int
  video_count : Option Int
  view_count_c : Option Int
  playlist_id : Option String
deriving DecidableEq, Inhabited

def jrowOf (v : VidRow) (c : ChanRow) : JRow :=
  { video_id := v.video_id
    video_title := v.video_title
    video_description := v.video_description
    published_at := v.published_at
    view_count := v.view_count
    like_count := v.like_count
    comment_count := v.comment_count
    duration := v.duration
    channel_id := c.channel_id
    channel_title := c.channel_title
    channel_description := c.channel_description
    channel_published_at := c.channel_published_at
    subscriber_count := c.subscriber_count
    video_count := c.video_count
    view_count_c := c.view_count_c
    playlist_id := c.playlist_id }

/-- The inner join (line 130) under SQL bag semantics: each video row is
paired with EVERY channel row whose `channel_id` matches its
`vid_channel_id`.  (Spark does not fix the physical row order; this list
order is one linearisation, and all properties proved below are
order-insensitive or concern single-row frames.) -/
def joined (recs : List RawRec) : List JRow :=
  (videos_df recs).flatMap fun vr =>
    ((channel_df recs).filter fun cr => nullStrEq vr.vid_channel_id cr.channel_id).map
      fun cr => jrowOf vr cr

/-- Final transformed row: the joined columns plus the partition columns
and a processing timestamp (lines 134-142). -/
structure TRow extends JRow where
  year : Int
  month : Int
  day : Int
  processed_timestamp : ParsedTs
deriving DecidableEq, Inhabited

/-- `transform_data` up to (and excluding) the write: read schema is given
by `recs`, the wall clock date by `(y, m, d)` and `current_timestamp()` by
`tnow`. -/
def transform_data (recs : List RawRec) (y m d : Nat) (tnow : ParsedTs) : List TRow :=
  (joined recs).map fun j =>
    { toJRow := j
      year := (get_date_paths y m d).year
      month := (get_date_paths y m d).month
      day := (get_date_paths y m d).day
      processed_timestamp := tnow }

/-! ## Glue job: the write step (glue_job.py, lines 158-163)

`transformed_df.write.partitionBy("year","month","day").mode("overwrite")`
to a Parquet path.  Two aspects of the Spark engine are modelled:

* the output column names, read off the two `select`s, the join and the
  `withColumn`s — note `view_count` occurs TWICE (video-level and
  channel-level), which Spark file sinks reject
  (`Found duplicate column(s) when inserting into ...`);
* `mode("overwrite")` with the default
  `spark.sql.sources.partitionOverwriteMode=static`, which, were the write
  to proceed, would truncate the ENTIRE output path and then write the new
  rows into their `(year, month, day)` directories. -/

def transformedColumns : List String :=
  ["video_id", "video_title", "video_description", "published_at",
   "view_count", "like_count", "comment_count", "duration",
   "channel_id", "channel_title", "channel_description", "channel_published_at",
   "subscriber_count", "video_count", "view_count", "playlist_id",
   "year", "month", "day", "processed_timestamp"]

/-- The transformed zone: the rows stored under each partition directory. -/
def S3Store : Type := Int × Int × Int → List TRow

def rowKey (r : TRow) : Int × Int × Int := (r.year, r.month, r.day)

def dateKey (y m d : Nat) : Int × Int × Int :=
  ((get_date_paths y m d).year, (get_date_paths y m d).month, (get_date_paths y m d).day)

/-- Static-mode partitioned overwrite: the previous contents of the output
root are discarded wholesale and every new row lands in its partition. -/
def write_overwrite (rows : List TRow) (_prev : S3Store) : S3Store :=
  fun p => rows.filter fun r => rowKey r == p

/-- The write as executed: Spark validates the output schema first and
aborts on duplicate column names, before touching the destination. -/
def write_parquet (rows : List TRow) (prev : S3Store) : Except String S3Store :=
  if transformedColumns.Nodup then Except.ok (write_overwrite rows prev)
  else Except.error "AnalysisException: Found duplicate columns when inserting: view_count"

/-! ## Lambda: upstream API model (lambda_function.py)

The YouTube client is an oracle of functions returning `Except String`,
one per API call the extractor makes; an `Except.error` stands for any
exception raised by the call.  Response dictionaries are embedded as
structures; the two statistics fields read with plain indexing
(`['viewCount']`, `['videoCount']`) keep their `Option` so that a missing
key can raise, while `.get(..., default)` reads are total. -/

structure SearchItem where
  channelId : String
deriving DecidableEq

structure ChanSnippet where
  title : String
  description : String
  publishedAt : String
deriving DecidableEq

structure ChanStats where
  viewCount : Option String
  subscriberCount : Option String
  videoCount : Option String
deriving DecidableEq

structure ChanContent where
  uploads : String
deriving DecidableEq

structure RawChannel where
  id : String
  snippet : ChanSnippet
  statistics : ChanStats
  contentDetails : ChanContent
deriving DecidableEq

structure PlaylistItem where
  videoId : String
  title : String
  description : String
  publishedAt : String
deriving DecidableEq

structure PlaylistPage where
  items : List PlaylistItem
  nextPageToken : Option String
deriving DecidableEq

structure VideoStats where
  viewCount : Option String
  likeCount : Option String
  commentCount : Option String
deriving DecidableEq

structure VideoItem where
  statistics : VideoStats
  duration : String
deriving DecidableEq

/-- The services the Lambda talks to: the YouTube API and S3 `put_object`
(`putOk bucket key` decides whether the upload raises `ClientError`). -/
structure YT where
  search : String → Except String (List SearchItem)
  channels_list : String → Except String (List RawChannel)
  playlist_items : String → Option String → Int → Except String PlaylistPage
  videos_list : List String → Except String (List VideoItem)
  putOk : String → String → Bool

structure ChannelInfo where
  channel_id : String
  title : String
  description : String
  published_at : String
  view_count : String
  subscriber_count : String
  video_count : String
  playlist_id : String
deriving DecidableEq

/-- The `channels().list` half of `get_channel_info` (lines 34-52). -/
def gci_fetch (yt : YT) (channel_id : String) : Except String (Option ChannelInfo) :=
  match yt.channels_list channel_id with
  | Except.error e => Except.error e
  | Except.ok [] => Except.ok none
  | Except.ok (info :: _) =>
    match info.statistics.viewCount with
    | none => Except.error "KeyError: viewCount"
    | some vc =>
      match info.statistics.videoCount with
      | none => Except.error "KeyError: videoCount"
      | some vidc =>
        Except.ok (some
          { channel_id := info.id
            title := info.snippet.title
            description := info.snippet.description
            published_at := info.snippet.publishedAt
            view_count := vc
            subscriber_count := info.statistics.subscriberCount.getD "N/A"
            video_count := vidc
            playlist_id := info.contentDetails.uploads })

/-- `channel_identifier.startswith("UC")`. -/
def startsWithUC (ident : String) : Bool :=
  match ident.toList with
  | 'U' :: 'C' :: _ => true
  | _ => false

/-- The body of `get_channel_info` (lines 19-52), before the enclosing
`try`/`except`: identifiers not starting with `UC` go through a search
first. -/
def gci_body (yt : YT) (ident : String) : Except String (Option ChannelInfo) :=
  if startsWithUC ident then gci_fetch yt ident
  else
    match yt.search ident with
    | Except.error e => Except.error e
    | Except.ok [] => Except.ok none
    | Except.ok (item :: _) => gci_fetch yt item.channelId

/-- `get_channel_info` (lines 18-55): the `except Exception` handler logs
and returns `None`, so no upstream error ever propagates. -/
def get_channel_info (yt : YT) (ident : String) : Option ChannelInfo :=
  match gci_body yt ident with
  | Except.error _ => none
  | Except.ok r => r

/-! ## Lambda: `get_channel_videos` (lambda_function.py, lines 57-95)

Statistics values are JSON strings when present; the `.get(..., 0)`
defaults substitute the INTEGER `0`, so a count is a string-or-integer
value `SVal`.  The `while True` pagination loop is unrolled with explicit
fuel (the source loop can only iterate again when the upstream returns a
`nextPageToken` and fewer than `max_results` videos have accumulated; the
model returns what has accumulated if the bound of 100 pages is passed). -/

inductive SVal where
  | s : String → SVal
  | n : Int → SVal
deriving DecidableEq

def statOr0 (x : Option String) : SVal :=
  match x with
  | some v => SVal.s v
  | none => SVal.n 0

structure VideoRec where
  video_id : String
  title : String
  description : String
  published_at : String
  view_count : SVal
  like_count : SVal
  comment_count : SVal
  duration : String
deriving DecidableEq

/-- Positional pairing of a playlist page with the statistics response
(`zip(playlist_response["items"], video_response["items"])`). -/
def mkVideoRec (p : PlaylistItem) (vi : VideoItem) : VideoRec :=
  { video_id := p.videoId
    title := p.title
    description := p.description
    published_at := p.publishedAt
    view_count := statOr0 vi.statistics.viewCount
    like_count := statOr0 vi.statistics.likeCount
    comment_count := statOr0 vi.statistics.commentCount
    duration := vi.duration }

def gcv_loop (yt : YT) (pid : String) (maxr : Int) :
    Nat → List VideoRec → Option String → Except String (List VideoRec)
  | 0, videos, _ => Except.ok videos
  | fuel + 1, videos, tok =>
    match yt.playlist_items pid tok (min 50 (maxr - videos.length)) with
    | Except.error e => Except.error e
    | Except.ok page =>
      match yt.videos_list (page.items.map fun i => i.videoId) with
      | Except.error e => Except.error e
      | Except.ok vitems =>
        let newv := videos ++ (page.items.zip vitems).map fun q => mkVideoRec q.1 q.2
        match page.nextPageToken with
        | none => Except.ok newv
        | some t =>
          if maxr ≤ (newv.length : Int) then Except.ok newv
          else gcv_loop yt pid maxr fuel newv (some t)

/-- `get_channel_videos`: the `except Exception` handler returns `None`. -/
def get_channel_videos (yt : YT) (pid : String) (maxr : Int) : Option (List VideoRec) :=
  match gcv_loop yt pid maxr 100 [] none with
  | Except.error _ => none
  | Except.ok vs => some vs

/-! ## Lambda: `analyze_channel_data` (lambda_function.py, lines 107-144)

`datetime.utcnow()` is the parameter `now`.  CPython `sorted` computes the
key `int(video["view_count"])` for every element, in list order, before
sorting (a `ValueError` aborts right there); the sort itself is stable
descending, realised by `List.insertionSort` with the reflexive-total
relation `byViewsDesc`.  The per-month loop parses every `published_at`
with `strptime` and raises on the first malformed one — there is no
`try`/`except` around it. -/

/-- Python `int(...)` on a string-or-integer count value. -/
def pyIntStr (str : String) : Option Int :=
  match trimChars str.toList with
  | '+' :: ds => if ds ≠ [] ∧ ds.all Char.isDigit then some (digitsVal ds : Int) else none
  | '-' :: ds => if ds ≠ [] ∧ ds.all Char.isDigit then some (-(digitsVal ds : Int)) else none
  | ds => if ds ≠ [] ∧ ds.all Char.isDigit then some (digitsVal ds : Int) else none

def pyIntOpt (x : SVal) : Option Int :=
  match x with
  | SVal.n k => some k
  | SVal.s str => pyIntStr str

def pyIntE (x : SVal) : Except String Int :=
  match pyIntOpt x with
  | some k => Except.ok k
  | none => Except.error "ValueError: invalid literal for int with base 10"

def viewKey (v : VideoRec) : Int := (pyIntOpt v.view_count).getD 0

def byViewsDesc (a b : VideoRec) : Prop := viewKey b ≤ viewKey a

instance : DecidableRel byViewsDesc :=
  fun a b => inferInstanceAs (Decidable (viewKey b ≤ viewKey a))

instance : IsTotal VideoRec byViewsDesc :=
  ⟨fun a b => le_total (viewKey b) (viewKey a)⟩

instance : IsTrans VideoRec byViewsDesc :=
  ⟨fun _ _ _ hab hbc => le_trans hbc hab⟩

structure ChannelStats where
  name : String
  subscribers : String
  total_videos : String
  total_views : String
deriving DecidableEq

structure TopVideo where
  title : String
  video_id : String
  view_count : SVal
  published_at : String
deriving DecidableEq

structure AnalysisSummary where
  channel_stats : ChannelStats
  video_trends : List (String × Nat)
  top_videos : List TopVideo
deriving DecidableEq

def projTop (v : VideoRec) : TopVideo :=
  { title := v.title
    video_id := v.video_id
    view_count := v.view_count
    published_at := v.published_at }

/-- `strftime("%Y-%m")` of a parsed timestamp. -/
def monthKey (t : ParsedTs) : String := pad4 t.year ++ "-" ++ zfill2 t.month

/-- `defaultdict(int)` increment, preserving dict insertion order. -/
def bumpMonth : List (String × Nat) → String → List (String × Nat)
  | [], k => [(k, 1)]
  | (k2, n) :: rest, k =>
    if k2 = k then (k2, n + 1) :: rest else (k2, n) :: bumpMonth rest k

/-- The `for video in videos_data` month-bucketing loop (lines 134-139). -/
def trendsOf (now : ParsedTs) : List VideoRec → List (String × Nat) →
    Except String (List (String × Nat))
  | [], acc => Except.ok acc
  | v :: vs, acc =>
    match parseTsZ v.published_at with
    | none => Except.error "ValueError: time data does not match format"
    | some ts =>
      trendsOf now vs
        (if tsEpoch now - 365 * 86400 ≤ tsEpoch ts then bumpMonth acc (monthKey ts) else acc)

def analyze_channel_data (ch : ChannelInfo) (videos : List VideoRec) (now : ParsedTs) :
    Except String AnalysisSummary :=
  match videos.mapM (fun v => pyIntE v.view_count) with
  | Except.error e => Except.error e
  | Except.ok _ =>
    match trendsOf now videos [] with
    | Except.error e => Except.error e
    | Except.ok trends =>
      Except.ok
        { channel_stats :=
            { name := ch.title
              subscribers := ch.subscriber_count
              total_videos := ch.video_count
              total_views := ch.view_count }
          video_trends := trends
          top_videos := ((List.insertionSort byViewsDesc videos).take 10).map projTop }

/-! ## Lambda: upload and handler (lambda_function.py, lines 97-182)

`json.dumps` is modelled as the identity on the structured payload (it is
injective on these values), and an S3 object as a `(bucket, key, payload)`
triple.  `upload_to_s3` catches `ClientError` and returns `False`, which
the caller ignores; here it simply contributes zero or one stored object.
`datetime.utcnow()` — used for the key timestamp and inside the analyzer —
is the parameter `now`, held fixed for the run. -/

structure RawPayload where
  channel_info : ChannelInfo
  videos : List VideoRec
  analysis : AnalysisSummary
deriving DecidableEq

structure StoredObj where
  bucket : String
  key : String
  body : RawPayload
deriving DecidableEq

def upload_to_s3 (putOk : String → String → Bool) (bucket key : String) (data : RawPayload) :
    List StoredObj :=
  if putOk bucket key then [⟨bucket, key, data⟩] else []

/-- `datetime.utcnow().strftime("%Y%m%d_%H%M%S")`. -/
def stampOf (now : ParsedTs) : String :=
  pad4 now.year ++ zfill2 now.month ++ zfill2 now.day ++ "_"
    ++ zfill2 now.hour ++ zfill2 now.minute ++ zfill2 now.second

/-- `title.replace(" ", "_")`: the pattern is a single character, so this
is a character-wise substitution. -/
def replaceSpaces (t : String) : String :=
  ⟨t.toList.map fun c => if c == ' ' then '_' else c⟩

def s3KeyOf (title : String) (now : ParsedTs) : String :=
  "raw/" ++ replaceSpaces title ++ "_" ++ stampOf now ++ ".json"

/-- One iteration of the `for channel in channels` loop (lines 154-170).
`if channel_info:` and `if videos:` skip falsy values (`None` and the
empty list); only `analyze_channel_data` can raise out of the iteration. -/
def process_channel (yt : YT) (now : ParsedTs) (bucket c : String) :
    Except String (List StoredObj) :=
  match get_channel_info yt c with
  | none => Except.ok []
  | some info =>
    match get_channel_videos yt info.playlist_id 100 with
    | none => Except.ok []
    | some [] => Except.ok []
    | some (v :: vs) =>
      match analyze_channel_data info (v :: vs) now with
      | Except.error e => Except.error e
      | Except.ok analysis =>
        Except.ok (upload_to_s3 yt.putOk bucket (s3KeyOf info.title now) ⟨info, v :: vs, analysis⟩)

/-- The whole loop: the stored objects accumulated so far, and the
exception (if any) that escaped and aborted the remaining iterations. -/
def run_channels (yt : YT) (now : ParsedTs) (bucket : String) :
    List String → List StoredObj × Option String
  | [] => ([], none)
  | c :: cs =>
    match process_channel yt now bucket c with
    | Except.error e => ([], some e)
    | Except.ok objs =>
      ((objs ++ (run_channels yt now bucket cs).1), (run_channels yt now bucket cs).2)

/-- The hard-coded channel list (line 150). -/
def channels : List String :=
  ["@straitstimesonline", "@TheBusinessTimes", "@Tamil_Murasu",
   "@zaobaodotsg", "@BeritaHarianSG1957"]

structure LambdaResp where
  statusCode : Nat
  body : String
deriving DecidableEq

/-- `lambda_handler` (lines 146-182): a missing environment variable is a
`KeyError` caught by the outer handler (status 500); an exception escaping
the loop is likewise converted to 500; otherwise the loop completing
yields status 200 regardless of how many sources were skipped. -/
def lambda_handler (env : String → Option String) (yt : YT) (now : ParsedTs) :
    LambdaResp × List StoredObj :=
  match env "YOUTUBE_API_KEY" with
  | none => ({ statusCode := 500, body := "Error: KeyError YOUTUBE_API_KEY" }, [])
  | some _ =>
    match env "S3_BUCKET_NAME" with
    | none => ({ statusCode := 500, body := "Error: KeyError S3_BUCKET_NAME" }, [])
    | some bucket =>
      match run_channels yt now bucket channels with
      | (objs, some e) => ({ statusCode := 500, body := "Error: " ++ e }, objs)
      | (objs, none) =>
        ({ statusCode := 200, body := "YouTube data extraction completed successfully" }, objs)

/-! ## Concrete inputs used by the claim theorems -/

/-- A fixed run instant: 2025-03-07 12:00:00. -/
def ts0 : ParsedTs := ⟨2025, 3, 7, 12, 0, 0⟩

/-- The channel record of the spec scenario for claim C5. -/
def chanTest : ChannelJ :=
  { channel_id := some "UC1"
    title := some "Test"
    description := some "d"
    published_at := some "2020-01-05T10:00:00Z"
    view_count := some "1000"
    subscriber_count := some "100"
    video_count := some "5"
    playlist_id := some "PL1" }

def vid50 : VideoJ :=
  { video_id := some "V1"
    title := some "v one"
    description := some "vd"
    published_at := some "2024-01-01T00:00:00Z"
    view_count := some "50"
    like_count := some "2"
    comment_count := some "1"
    duration := some "PT1M" }

def vid70 : VideoJ :=
  { video_id := some "V2"
    title := some "v two"
    description := some "vd2"
    published_at := some "2024-02-01T00:00:00Z"
    view_count := some "70"
    like_count := some "3"
    comment_count := some "4"
    duration := some "PT2M" }

/-- A video whose view count is the non-numeric string of claim C2. -/
def vidAbc : VideoJ :=
  { vid50 with video_id := some "V3", view_count := some "abc" }

/-- Claim C5 scenario: one channel, one item. -/
def rec5 : RawRec := { videos := some [vid50], channel_info := some chanTest }

/-- Claim C1 failing input: one channel with TWO items. -/
def recTwoVids : RawRec := { videos := some [vid50, vid70], channel_info := some chanTest }

/-- Claim C2 counterexample input: one channel, one item with view count "abc". -/
def recBadCount : RawRec := { videos := some [vidAbc], channel_info := some chanTest }

/-- A pre-existing store with data in partition (2024, 1, 1). -/
def storeOld : S3Store := fun _ => [default]

def chInfo0 : ChannelInfo :=
  { channel_id := "UC1"
    title := "Test"
    description := "d"
    published_at := "2020-01-05T10:00:00Z"
    view_count := "1000"
    subscriber_count := "100"
    video_count := "5"
    playlist_id := "PL1" }

def vrec (vid : String) (vc : String) (pub : String) : VideoRec :=
  { video_id := vid
    title := "t " ++ vid
    description := "d " ++ vid
    published_at := pub
    view_count := SVal.s vc
    like_count := SVal.s "1"
    comment_count := SVal.s "1"
    duration := "PT1M" }

/-- Claim C3 failing input: a well formed video followed by one whose
creation timestamp is malformed. -/
def vidOkL : VideoRec := vrec "V1" "100" "2025-01-01T00:00:00Z"

def vidBadTs : VideoRec := vrec "V2" "50" "not-a-date"

/-- Claim C4 witness input: one high count and a tie at 50. -/
def vids0 : List VideoRec :=
  [vrec "A" "50" "2025-01-01T00:00:00Z",
   vrec "B" "100" "2025-01-02T00:00:00Z",
   vrec "C" "50" "2025-01-03T00:00:00Z"]

/-- Extracts the summary from an `Except.ok`; the default is irrelevant. -/
def okAnalysis (x : Except String AnalysisSummary) : AnalysisSummary :=
  match x with
  | Except.ok a => a
  | Except.error _ => ⟨⟨"", "", "", ""⟩, [], []⟩

/-- An upstream on which every API call raises. -/
def ytDead : YT :=
  { search := fun _ => Except.error "API down"
    channels_list := fun _ => Except.error "API down"
    playlist_items := fun _ _ _ => Except.error "API down"
    videos_list := fun _ => Except.error "API down"
    putOk := fun _ _ => true }

def rawChan0 : RawChannel :=
  { id := "UCx"
    snippet := { title := "Chan X", description := "dx", publishedAt := "2020-01-05T10:00:00Z" }
    statistics := { viewCount := some "1000", subscriberCount := some "100", videoCount := some "1" }
    contentDetails := { uploads := "PLx" } }

def pli0 : PlaylistItem :=
  { videoId := "VX", title := "vx", description := "dvx", publishedAt := "2025-01-01T00:00:00Z" }

def vitem0 : VideoItem :=
  { statistics := { viewCount := some "10", likeCount := some "1", commentCount := some "1" }
    duration := "PT1M" }

/-- An upstream on which the search for "@down" raises and everything
else succeeds with one channel holding one video. -/
def ytMixed : YT :=
  { search := fun q => if q = "@down" then Except.error "API down" else Except.ok [⟨"UCx"⟩]
    channels_list := fun _ => Except.ok [rawChan0]
    playlist_items := fun _ _ _ => Except.ok { items := [pli0], nextPageToken := none }
    videos_list := fun _ => Except.ok [vitem0]
    putOk := fun _ _ => true }

def envNone : String → Option String := fun _ => none

def envTwo : String → Option String := fun s =>
  if s = "YOUTUBE_API_KEY" then some "KEY"
  else if s = "S3_BUCKET_NAME" then some "BUCKET" else none

/-- The sort key as seen on a top-videos entry. -/
def topKey (x : TopVideo) : Int := (pyIntOpt x.view_count).getD 0

/-- "has integer view count `k`", on input items. -/
def pkVid (k : Int) (v : VideoRec) : Bool := pyIntOpt v.view_count == some k

/-- "has integer view count `k`", on top-videos entries. -/
def pkTop (k : Int) (x : TopVideo) : Bool := pyIntOpt x.view_count == some k

/-- The transformed zone after a run: on a write failure the job raises
(`except ... raise`, lines 167-169) and the destination is untouched —
Spark validates the schema during planning, before deleting anything. -/
def glue_store_after (rows : List TRow) (s0 : S3Store) : S3Store :=
  match write_parquet rows s0 with
  | Except.ok s1 => s1
  | Except.error _ => s0

/-! ## Helper lemmas -/

theorem transform_rowKey (recs : List RawRec) (y m d : Nat) (t : ParsedTs) :
    ∀ r ∈ transform_data recs y m d t, rowKey r = dateKey y m d := by
  intro r hr
  simp only [transform_data, List.mem_map] at hr
  obtain ⟨j, hj, rfl⟩ := hr
  rfl

theorem pkVid_viewKey {k : Int} {v : VideoRec} (h : pkVid k v = true) : viewKey v = k := by
  simp only [pkVid, beq_iff_eq] at h
  simp [viewKey, h]

theorem orderedInsert_filter_viewKey (k : Int) (x : VideoRec) :
    ∀ l : List VideoRec, (List.orderedInsert byViewsDesc x l).filter (pkVid k)
      = if pkVid k x then x :: l.filter (pkVid k) else l.filter (pkVid k) := by
  intro l
  induction l with
  | nil => cases hx : pkVid k x <;> simp [List.orderedInsert, List.filter_cons, hx]
  | cons y ys ih =>
    by_cases hxy : byViewsDesc x y
    · rw [List.orderedInsert, if_pos hxy]
      cases hx : pkVid k x <;> simp [List.filter_cons, hx]
    · rw [List.orderedInsert, if_neg hxy, List.filter_cons, ih, List.filter_cons]
      by_cases hx : pkVid k x = true
      · have hy : pkVid k y = false := by
          by_contra hc
          simp only [Bool.not_eq_false] at hc
          have h1 := pkVid_viewKey hx
          have h2 := pkVid_viewKey hc
          exact hxy (le_of_eq (h2.trans h1.symm))
        simp [hx, hy]
      · simp [hx]

theorem insertionSort_filter_viewKey (k : Int) :
    ∀ l : List VideoRec,
      (List.insertionSort byViewsDesc l).filter (pkVid k) = l.filter (pkVid k) := by
  intro l
  induction l with
  | nil => rfl
  | cons x xs ih =>
    rw [List.insertionSort, orderedInsert_filter_viewKey, ih, List.filter_cons]

theorem analyze_ok_top (ch : ChannelInfo) (videos : List VideoRec) (now : ParsedTs)
    (a : AnalysisSummary) (h : analyze_channel_data ch videos now = Except.ok a) :
    a.top_videos = ((List.insertionSort byViewsDesc videos).take 10).map projTop := by
  unfold analyze_channel_data at h
  cases hm : videos.mapM (fun v => pyIntE v.view_count) with
  | error e => rw [hm] at h; simp at h
  | ok ks =>
    rw [hm] at h
    cases ht : trendsOf now videos [] with
    | error e => rw [ht] at h; simp at h
    | ok tr =>
      rw [ht] at h
      simp only [Except.ok.injEq] at h
      rw [← h]

theorem joined_counts (recs : List RawRec) (j : JRow) (hj : j ∈ joined recs) :
    ∃ p, p ∈ exploded recs ∧ j.view_count = castLong p.2.view_count
      ∧ j.like_count = castLong p.2.like_count
      ∧ j.comment_count = castLong p.2.comment_count := by
  simp only [joined, videos_df, List.mem_flatMap, List.mem_map, List.mem_filter] at hj
  obtain ⟨vr, ⟨p, hp, rfl⟩, cr, hcr, rfl⟩ := hj
  exact ⟨p, hp, rfl, rfl, rfl⟩

theorem run_channels_skip (yt : YT) (now : ParsedTs) (bucket c : String)
    (h : get_channel_info yt c = none) :
    ∀ cs1 cs2 : List String,
      run_channels yt now bucket (cs1 ++ c :: cs2) = run_channels yt now bucket (cs1 ++ cs2) := by
  have hp : process_channel yt now bucket c = Except.ok [] := by
    unfold process_channel
    rw [h]
  intro cs1 cs2
  induction cs1 with
  | nil => simp [run_channels, hp]
  | cons a as ih =>
    simp only [List.cons_append]
    cases hq : process_channel yt now bucket a with
    | error e => simp [run_channels, hq]
    | ok objs => simp [run_channels, hq, ih]

theorem run_channels_all_none (yt : YT) (now : ParsedTs) (bucket : String) :
    ∀ cs : List String, (∀ c ∈ cs, get_channel_info yt c = none) →
      run_channels yt now bucket cs = ([], none) := by
  intro cs
  induction cs with
  | nil => intro _; rfl
  | cons a as ih =>
    intro h
    have hp : process_channel yt now bucket a = Except.ok [] := by
      unfold process_channel
      rw [h a (by simp)]
    simp [run_channels, hp, ih (fun c hc => h c (by simp [hc]))]

/-! ## Claim theorems -/

/-- C1: the claim says `flatten` followed by `join` yields exactly ONE
output row per item whose source identifier matches a present source
record.  The code violates it: `channel_df` is selected from the exploded
frame, so it holds one channel row PER VIDEO, and the inner join pairs
each video with every one of them.  For a single channel with two videos
(each matching the channel record) the claimed output is 2 rows; the code
produces 4. -/
theorem c1_join_duplicates_rows :
    (recTwoVids.videos.getD []).length = 2
      ∧ (transform_data [recTwoVids] 2025 3 7 ts0).length = 4 :=
  ⟨rfl, by decide⟩

/-- C2 counterexample: for an item whose `view_count` is the non-numeric
string "abc", the claim says the flatten step raises a typed parse failure
and the run aborts with no output.  Instead the transformation produces
the row, with the count cast to null. -/
theorem c2_cex_null_instead_of_error :
    ((transform_data [recBadCount] 2025 3 7 ts0).map fun r => r.view_count) = [none]
      ∧ (transform_data [recBadCount] 2025 3 7 ts0).length = 1 :=
  ⟨by decide, by decide⟩

/-- C2 (amended): every transformed row carries Spark `CAST(... AS long)`
of the underlying item's count strings — `null` for a non-numeric string
such as "abc" — and the transformation itself never fails: the bad value
is substituted by null, not reported. -/
theorem c2_counts_cast_to_null (recs : List RawRec) (y m d : Nat) (t : ParsedTs) (r : TRow)
    (hr : r ∈ transform_data recs y m d t) :
    ∃ p, p ∈ exploded recs ∧ r.view_count = castLong p.2.view_count
      ∧ r.like_count = castLong p.2.like_count
      ∧ r.comment_count = castLong p.2.comment_count := by
  simp only [transform_data, List.mem_map] at hr
  obtain ⟨j, hj, rfl⟩ := hr
  exact joined_counts recs j hj

/-- C2 witness: the amended statement evaluated on the "abc" record. -/
theorem c2_counts_cast_to_null_witness :
    (transform_data [recBadCount] 2025 3 7 ts0).headI ∈ transform_data [recBadCount] 2025 3 7 ts0
      ∧ (∃ p, p ∈ exploded [recBadCount]
          ∧ (transform_data [recBadCount] 2025 3 7 ts0).headI.view_count = castLong p.2.view_count
          ∧ (transform_data [recBadCount] 2025 3 7 ts0).headI.like_count = castLong p.2.like_count
          ∧ (transform_data [recBadCount] 2025 3 7 ts0).headI.comment_count
              = castLong p.2.comment_count) :=
  ⟨by decide, c2_counts_cast_to_null [recBadCount] 2025 3 7 ts0 _ (by decide)⟩

/-- C3: the claim says a malformed creation timestamp is tolerated and the
summary is still produced for the remaining items.  The code has no
`try`/`except` around `strptime`, so one malformed `published_at` aborts
the whole analysis; the same input without the malformed item succeeds. -/
theorem c3_malformed_timestamp_aborts :
    analyze_channel_data chInfo0 [vidOkL, vidBadTs] ts0
        = Except.error "ValueError: time data does not match format"
      ∧ (analyze_channel_data chInfo0 [vidOkL] ts0).isOk = true :=
  ⟨rfl, by decide⟩

/-- C4: whenever `analyze` succeeds, its top-10 list is sorted descending
by integer view count, has length at most 10, consists of (projections
of) input items, and is stable: for each count value `k`, the entries with
count `k` are an initial segment of the input items with count `k`, in
input order. -/
theorem c4_top10_sorted_bounded_stable (ch : ChannelInfo) (videos : List VideoRec)
    (now : ParsedTs) (a : AnalysisSummary) (k : Int)
    (h : analyze_channel_data ch videos now = Except.ok a) :
    a.top_videos.Pairwise (fun x y => topKey y ≤ topKey x)
      ∧ a.top_videos.length ≤ 10
      ∧ (∀ x ∈ a.top_videos, ∃ v, v ∈ videos ∧ x = projTop v)
      ∧ (∃ rest, a.top_videos.filter (pkTop k) ++ rest
          = (videos.filter (pkVid k)).map projTop) := by
  have htop := analyze_ok_top ch videos now a h
  have hsorted : (List.insertionSort byViewsDesc videos).Sorted byViewsDesc :=
    List.sorted_insertionSort byViewsDesc videos
  have hperm := List.perm_insertionSort byViewsDesc videos
  refine ⟨?_, ?_, ?_, ?_⟩
  · rw [htop]
    refine List.pairwise_map.mpr ?_
    exact (List.Pairwise.sublist (List.take_sublist 10 _) hsorted).imp fun hab => hab
  · rw [htop]
    simp only [List.length_map, List.length_take]
    exact min_le_left _ _
  · rw [htop]
    intro x hx
    simp only [List.mem_map] at hx
    obtain ⟨v, hv, rfl⟩ := hx
    exact ⟨v, hperm.mem_iff.mp (List.mem_of_mem_take hv), rfl⟩
  · rw [htop]
    have hcomp : pkTop k ∘ projTop = pkVid k := rfl
    refine ⟨(((List.insertionSort byViewsDesc videos).drop 10).filter (pkVid k)).map projTop, ?_⟩
    rw [List.filter_map, hcomp, ← List.map_append, ← List.filter_append,
      List.take_append_drop, insertionSort_filter_viewKey]

/-- C4 witness: three items with counts 100, 50, 50; the tie at 50 keeps
input order. -/
theorem c4_top10_witness :
    analyze_channel_data chInfo0 vids0 ts0
        = Except.ok (okAnalysis (analyze_channel_data chInfo0 vids0 ts0))
      ∧ ((okAnalysis (analyze_channel_data chInfo0 vids0 ts0)).top_videos.Pairwise
            (fun x y => topKey y ≤ topKey x)
          ∧ (okAnalysis (analyze_channel_data chInfo0 vids0 ts0)).top_videos.length ≤ 10
          ∧ (∀ x ∈ (okAnalysis (analyze_channel_data chInfo0 vids0 ts0)).top_videos,
              ∃ v, v ∈ vids0 ∧ x = projTop v)
          ∧ (∃ rest, (okAnalysis (analyze_channel_data chInfo0 vids0 ts0)).top_videos.filter
                (pkTop 50) ++ rest = (vids0.filter (pkVid 50)).map projTop)) :=
  ⟨rfl, c4_top10_sorted_bounded_stable chInfo0 vids0 ts0 _ 50 rfl⟩

/-- C5: the spec scenario — channel `subscriber_count` "100", item
`view_count` "50", channel `view_count` "1000", `video_count` "5" — lands
in the flattened row as integer 100 / 50 / 1000 / 5 in the respective
columns: channel-level and item-level counters are not swapped. -/
theorem c5_counts_not_swapped :
    ((transform_data [rec5] 2025 3 7 ts0).map fun r =>
        (r.subscriber_count, r.view_count, r.view_count_c, r.video_count))
      = [(some 100, some 50, some 1000, some 5)] := by decide

/-- C6: the claim describes an idempotent per-date overwrite; in the code
no write ever succeeds.  The joined output schema contains the column
`view_count` twice (video-level and channel-level), which the Spark file
sink rejects before writing, so every run aborts and no output partition
is produced at all — for any input, date and prior store contents. -/
theorem c6_write_rejected_no_partition_written (recs : List RawRec) (y m d : Nat)
    (t : ParsedTs) (s0 : S3Store) :
    write_parquet (transform_data recs y m d t) s0
      = Except.error "AnalysisException: Found duplicate columns when inserting: view_count" :=
  rfl

/-- C7: partition-path derivation at (2025, 3, 7): zero-padded path string
and integer year/month/day components. -/
theorem c7_partition_path :
    get_date_paths 2025 3 7
      = { year := 2025, month := 3, day := 7, date_path := "year=2025/month=03/day=07" } := by
  decide

/-- C8: if the upstream raises during `get_channel_info`, the function
returns `None` (fail-soft), and the extraction batch over the remaining
sources is exactly what it would have been without the failing source. -/
theorem c8_fail_soft_batch_continues (yt : YT) (now : ParsedTs) (bucket c : String)
    (cs1 cs2 : List String) (e : String) (h : gci_body yt c = Except.error e) :
    get_channel_info yt c = none
      ∧ run_channels yt now bucket (cs1 ++ c :: cs2) = run_channels yt now bucket (cs1 ++ cs2) := by
  have hn : get_channel_info yt c = none := by
    unfold get_channel_info
    rw [h]
  exact ⟨hn, run_channels_skip yt now bucket c hn cs1 cs2⟩

/-- C8 witness: an upstream that raises only for "@down"; the batch
`["@ok", "@down"]` stores exactly what `["@ok"]` does. -/
theorem c8_fail_soft_witness :
    gci_body ytMixed "@down" = Except.error "API down"
      ∧ (get_channel_info ytMixed "@down" = none
          ∧ run_channels ytMixed ts0 "B" (["@ok"] ++ "@down" :: [])
              = run_channels ytMixed ts0 "B" (["@ok"] ++ [])) :=
  ⟨rfl, c8_fail_soft_batch_continues ytMixed ts0 "B" "@down" ["@ok"] [] "API down" rfl⟩

/-- C9: the claim says a run for date D removes the previously written
partitions of other dates (whole-root static overwrite).  In the code the
write is rejected on the duplicate `view_count` column during planning,
before any deletion, so the transformed zone — other dates included — is
left completely unchanged by every run. -/
theorem c9_store_left_unchanged (recs : List RawRec) (y m d : Nat) (t : ParsedTs)
    (s0 : S3Store) :
    glue_store_after (transform_data recs y m d t) s0 = s0 :=
  rfl

/-- C10: the extraction entrypoint returns 500 when the API-key
environment variable is missing, returns 200 whenever the per-source loop
completes, and in particular returns 200 with no stored object when every
source lookup fails. -/
theorem c10_entry_status (env1 env2 : String → Option String) (yt : YT) (now : ParsedTs)
    (k b : String) :
    (env1 "YOUTUBE_API_KEY" = none → (lambda_handler env1 yt now).1.statusCode = 500)
      ∧ (env2 "YOUTUBE_API_KEY" = some k → env2 "S3_BUCKET_NAME" = some b →
          (run_channels yt now b channels).2 = none →
          (lambda_handler env2 yt now).1.statusCode = 200)
      ∧ (env2 "YOUTUBE_API_KEY" = some k → env2 "S3_BUCKET_NAME" = some b →
          (∀ c ∈ channels, get_channel_info yt c = none) →
          lambda_handler env2 yt now
            = ({ statusCode := 200,
                 body := "YouTube data extraction completed successfully" }, [])) := by
  refine ⟨?_, ?_, ?_⟩
  · intro h1
    simp [lambda_handler, h1]
  · intro h1 h2 h3
    simp only [lambda_handler, h1, h2]
    rcases hrc : run_channels yt now b channels with ⟨objs, err⟩
    rw [hrc] at h3
    simp only at h3
    subst h3
    simp
  · intro h1 h2 h3
    have hall := run_channels_all_none yt now b channels h3
    simp [lambda_handler, h1, h2, hall]

/-- C10 witness: a missing environment gives 500; a complete environment
with an upstream that fails every lookup gives 200 and stores nothing. -/
theorem c10_entry_status_witness :
    (lambda_handler envNone ytDead ts0).1.statusCode = 500
      ∧ lambda_handler envTwo ytDead ts0
          = ({ statusCode := 200,
               body := "YouTube data extraction completed successfully" }, []) :=
  ⟨(c10_entry_status envNone envTwo ytDead ts0 "KEY" "BUCKET").1 rfl,
   (c10_entry_status envNone envTwo ytDead ts0 "KEY" "BUCKET").2.2 rfl rfl (by decide)⟩

/-- C9 counterexample: a store holding a row in partition (2024, 1, 1) is
claimed to lose it after a run for 2025-03-07; it keeps it unchanged. -/
theorem c9_cex_other_partition_not_removed :
    storeOld (2024, 1, 1) = [default]
      ∧ glue_store_after (transform_data [rec5] 2025 3 7 ts0) storeOld (2024, 1, 1) = [default] :=
  ⟨rfl, rfl⟩
